import Mathlib

set_option maxRecDepth 8000

/-!
Shallow embedding of the financial document Q&A application: file upload
validation (`FileHandler`), the document text/metric extraction pipeline
(`DocumentProcessor`), the model-backed question answering layer
(`AIQuestionAnswering`) and the pattern-matching fallback (`SimpleQA`),
together with character-list models of the Python string operations they
use (substring test, `str.replace`, `str.split`, `str.strip`, and the
handful of concrete regular expressions the code searches with).
-/

/-! ## Python string primitives -/

/-- ASCII whitespace as recognised by Python `str.split()`, `str.strip()`
and the `\s` regex class (ASCII range). -/
def pyIsSpace (c : Char) : Bool :=
  c == ' ' || c == '\t' || c == '\n' || c == '\r' || c == '\x0b' || c == '\x0c'

/-- The `[a-zA-Z]` character class. -/
def isAsciiLetter (c : Char) : Bool :=
  ('a' ≤ c && c ≤ 'z') || ('A' ≤ c && c ≤ 'Z')

/-- The `[:\s]` character class used by the metric regexes. -/
def isColonSpace (c : Char) : Bool := c == ':' || pyIsSpace c

/-- The `[\d,]` character class used by the fallback answerer's regexes. -/
def isDigitComma (c : Char) : Bool := c.isDigit || c == ','

/-- `isPrefixL p l` is true when `p` is a prefix of `l`. -/
def isPrefixL : List Char → List Char → Bool
  | [], _ => true
  | _ :: _, [] => false
  | a :: as, b :: bs => a == b && isPrefixL as bs

/-- Remove the prefix `p` from `l`, failing when `p` is not a prefix. -/
def dropPrefixL : List Char → List Char → Option (List Char)
  | [], l => some l
  | _ :: _, [] => none
  | a :: as, b :: bs => if a == b then dropPrefixL as bs else none

/-- `containsL pat l` is Python's `pat in l` substring test. -/
def containsL (pat : List Char) : List Char → Bool
  | [] => isPrefixL pat []
  | c :: t => isPrefixL pat (c :: t) || containsL pat t

/-- Python's `pat in s` substring test on strings. -/
def containsStr (s pat : String) : Bool := containsL pat.data s.data

/-- Python's `str.lower()` (ASCII case folding suffices for this code). -/
def lowerStr (s : String) : String := ⟨s.data.map Char.toLower⟩

/-- One step of Python's `str.replace`: scan left to right, replacing
non-overlapping occurrences of `o :: os` by `new`.  The fuel argument is
instantiated with the length of the scanned list, which bounds the number
of steps since every step consumes at least one character. -/
def replaceGo (o : Char) (os new : List Char) : Nat → List Char → List Char
  | 0, l => l
  | _ + 1, [] => []
  | fuel + 1, c :: t =>
    if isPrefixL (o :: os) (c :: t) then new ++ replaceGo o os new fuel (t.drop os.length)
    else c :: replaceGo o os new fuel t

/-- Python's `s.replace(old, new)` for the non-empty patterns the code
uses (an empty pattern leaves the string unchanged here; the source never
calls `replace` with an empty pattern). -/
def pyReplace (old new s : String) : String :=
  match old.data with
  | [] => s
  | o :: os => ⟨replaceGo o os new.data s.data.length s.data⟩

/-- `re.sub(r'(\d)([a-zA-Z])', r'\1 \2', ·)`: insert a space between a
digit and an immediately following letter. -/
def subDigitLetter : List Char → List Char
  | a :: b :: t =>
    if a.isDigit && isAsciiLetter b then a :: ' ' :: subDigitLetter (b :: t)
    else a :: subDigitLetter (b :: t)
  | l => l

/-- `re.sub(r'([a-zA-Z])(\d)', r'\1 \2', ·)`: insert a space between a
letter and an immediately following digit. -/
def subLetterDigit : List Char → List Char
  | a :: b :: t =>
    if isAsciiLetter a && b.isDigit then a :: ' ' :: subLetterDigit (b :: t)
    else a :: subLetterDigit (b :: t)
  | l => l

/-- Python's `str.split()` with no separator: split on runs of whitespace,
dropping empty words.  Fueled by the length of the list. -/
def pySplitGo : Nat → List Char → List (List Char)
  | 0, _ => []
  | _ + 1, [] => []
  | fuel + 1, c :: t =>
    if pyIsSpace c then pySplitGo fuel t
    else (c :: t.takeWhile (fun x => !pyIsSpace x)) ::
      pySplitGo fuel (t.dropWhile (fun x => !pyIsSpace x))

/-- Python's `str.split()` on a string. -/
def pySplit (l : List Char) : List (List Char) := pySplitGo l.length l

/-- Python's `str.strip()`. -/
def pyStrip (s : String) : String :=
  ⟨((s.data.dropWhile pyIsSpace).reverse.dropWhile pyIsSpace).reverse⟩

/-- Python's `s[:n]` slice. -/
def takeStr (n : Nat) (s : String) : String := ⟨s.data.take n⟩

/-! ## FileHandler (src/utils/file_handler.py) -/

namespace FileHandler

/-- `FileHandler.SUPPORTED_FORMATS`, in Python dict insertion order. -/
def SUPPORTED_FORMATS : List (String × List String) :=
  [("pdf", ["pdf"]), ("excel", ["xlsx", "xls", "xlsm"])]

/-- `FileHandler.MAX_FILE_SIZE = 50 * 1024 * 1024`. -/
def MAX_FILE_SIZE : Nat := 50 * 1024 * 1024

/-- The flattened `supported_extensions` list built inside `validate_file`. -/
def supported_extensions : List String := (SUPPORTED_FORMATS.map Prod.snd).flatten

/-- Split a character list at `/` separators, dropping empty segments,
fueled by the length of the list. -/
def slashSplitGo : Nat → List Char → List (List Char)
  | 0, _ => []
  | _ + 1, [] => []
  | fuel + 1, c :: t =>
    if c == '/' then slashSplitGo fuel t
    else (c :: t.takeWhile (fun x => x != '/')) ::
      slashSplitGo fuel (t.dropWhile (fun x => x != '/'))

/-- `pathlib.Path(s).name`: the final path component (empty and `.`
segments are dropped by path normalisation). -/
def pathName (s : String) : String :=
  ⟨(((slashSplitGo s.data.length s.data).filter (fun p => p ≠ ['.'])).getLast?).getD []⟩

/-- `pathlib.Path(name).suffix`: `name[i:]` for the last index `i` of a
dot, provided `0 < i < len(name) - 1`, else the empty string. -/
def pathSuffix (name : String) : String :=
  let r := name.data.reverse
  let after := r.takeWhile (fun c => c != '.')
  match r.dropWhile (fun c => c != '.') with
  | [] => ""
  | _ :: before =>
    if before = [] then ""
    else if after = [] then ""
    else ⟨'.' :: after.reverse⟩

/-- `Path(uploaded_file.name).suffix.lower().lstrip('.')`. -/
def file_extension (filename : String) : String :=
  ⟨(lowerStr (pathSuffix (pathName filename))).data.dropWhile (fun c => c == '.')⟩

/-- `FileHandler._get_file_type`: first format whose extension list
contains the extension, else `"unknown"`. -/
def get_file_type (extension : String) : String :=
  match SUPPORTED_FORMATS.find? (fun p => p.snd.contains extension) with
  | some p => p.fst
  | none => "unknown"

/-- Outcome of `FileHandler.validate_file`: either the error dictionary or
the success dictionary echoing type, extension, size and name. -/
inductive Validation where
  | invalid (error : String)
  | valid (file_type extension : String) (size : Nat) (name : String)
deriving DecidableEq

/-- `FileHandler.validate_file` on a present upload with the given
filename and byte size: size ceiling first, then the extension allow-list,
then classification. -/
def validate_file (name : String) (size : Nat) : Validation :=
  if size > MAX_FILE_SIZE then .invalid "File too large. Max size: 50MB"
  else if !supported_extensions.contains (file_extension name) then
    .invalid ("Unsupported format. Supported: " ++ String.intercalate ", " supported_extensions)
  else .valid (get_file_type (file_extension name)) (file_extension name) size name

end FileHandler

/-! ## Regex matchers

The source searches with a handful of concrete regular expressions.  Each
has the shape `LITERAL[:\s]+\$?NUMBER`, alternation-free, so Python's
leftmost greedy `re.search` semantics is realised by a deterministic
max-munch matcher tried at every position from the left. -/

/-- Attempt to match `lit[:\s]+\$?([\d,]+)` (the `SimpleQA` patterns) at
the head of `l`, returning the captured group. -/
def matchSimpleAt (lit l : List Char) : Option (List Char) :=
  match dropPrefixL lit l with
  | none => none
  | some r1 =>
    if r1.takeWhile isColonSpace = [] then none
    else
      let r2 := r1.dropWhile isColonSpace
      let r3 := match r2 with
        | '$' :: t => t
        | _ => r2
      if r3.takeWhile isDigitComma = [] then none
      else some (r3.takeWhile isDigitComma)

/-- `re.search` for the `SimpleQA` patterns: try `matchSimpleAt` at every
position from the left, returning the first (leftmost) capture. -/
def searchSimple (lit : List Char) : List Char → Option (List Char)
  | [] => matchSimpleAt lit []
  | c :: t =>
    match matchSimpleAt lit (c :: t) with
    | some cap => some cap
    | none => searchSimple lit t

/-- Take at most `n` leading characters satisfying `p`. -/
def takeUpTo (n : Nat) (p : Char → Bool) : List Char → List Char
  | [] => []
  | c :: t =>
    match n with
    | 0 => []
    | m + 1 => if p c then c :: takeUpTo m p t else []

/-- Remainder of `takeUpTo`. -/
def dropUpTo (n : Nat) (p : Char → Bool) : List Char → List Char
  | [] => []
  | c :: t =>
    match n with
    | 0 => c :: t
    | m + 1 => if p c then dropUpTo m p t else c :: t

/-- Greedy `(?:,\d{3})*`: consumed characters and remainder. -/
def starCommaTriple : List Char → List Char × List Char
  | ',' :: a :: b :: c :: t =>
    if a.isDigit && b.isDigit && c.isDigit then
      (',' :: a :: b :: c :: (starCommaTriple t).1, (starCommaTriple t).2)
    else ([], ',' :: a :: b :: c :: t)
  | l => ([], l)

/-- Optional `(?:\.\d{2})?`: the consumed characters (nothing of the
pattern follows it, so the remainder is not needed). -/
def optDecimal : List Char → List Char
  | '.' :: a :: b :: _ => if a.isDigit && b.isDigit then ['.', a, b] else []
  | _ => []

/-- Attempt to match `lit[:\s]+\$?(\d{1,3}(?:,\d{3})*(?:\.\d{2})?)` (the
`DocumentProcessor` metric patterns) at the head of `l`, returning the
captured group. -/
def matchNumAt (lit l : List Char) : Option (List Char) :=
  match dropPrefixL lit l with
  | none => none
  | some r1 =>
    if r1.takeWhile isColonSpace = [] then none
    else
      let r2 := r1.dropWhile isColonSpace
      let r3 := match r2 with
        | '$' :: t => t
        | _ => r2
      if takeUpTo 3 Char.isDigit r3 = [] then none
      else
        let d1 := takeUpTo 3 Char.isDigit r3
        let r4 := dropUpTo 3 Char.isDigit r3
        some (d1 ++ (starCommaTriple r4).1 ++ optDecimal (starCommaTriple r4).2)

/-- `re.search` for the `DocumentProcessor` metric patterns. -/
def searchNum (lit : List Char) : List Char → Option (List Char)
  | [] => matchNumAt lit []
  | c :: t =>
    match matchNumAt lit (c :: t) with
    | some cap => some cap
    | none => searchNum lit t

/-! ## Python dict as an insertion-ordered association list -/

/-- `m[k] = v` on a Python dict: update the value in place when the key
exists, append otherwise. -/
def dictInsert (m : List (String × String)) (k v : String) : List (String × String) :=
  match m with
  | [] => [(k, v)]
  | (k2, v2) :: t => if k2 = k then (k2, v) :: t else (k2, v2) :: dictInsert t k v

/-- `m.get(k)` on a Python dict. -/
def dictLookup (k : String) : List (String × String) → Option String
  | [] => none
  | (k2, v) :: t => if k2 = k then some v else dictLookup k t

/-- `list(m.keys())` on a Python dict. -/
def dictKeys (m : List (String × String)) : List String := m.map Prod.fst

/-! ## SimpleQA (src/utils/simple_qa.py) -/

namespace SimpleQA

/-- `SimpleQA._find_revenue_info`, on the already lower-cased document
text: the patterns `revenue[:\s]+\$?([\d,]+)` and `sales[:\s]+\$?([\d,]+)`
in order, then a keyword-presence fallback. -/
def find_revenue_info (doc : String) : String :=
  match searchSimple "revenue".data doc.data with
  | some cap => "💰 Found revenue: $" ++ ⟨cap⟩
  | none =>
    match searchSimple "sales".data doc.data with
    | some cap => "💰 Found revenue: $" ++ ⟨cap⟩
    | none =>
      if containsStr doc "revenue" then
        "📊 Revenue information found in the document. Please check the income statement."
      else "❓ No specific revenue information found."

/-- `SimpleQA._find_profit_info`: the patterns `profit[:\s]+\$?([\d,]+)`
and `net income[:\s]+\$?([\d,]+)` in order. -/
def find_profit_info (doc : String) : String :=
  match searchSimple "profit".data doc.data with
  | some cap => "💵 Found profit: $" ++ ⟨cap⟩
  | none =>
    match searchSimple "net income".data doc.data with
    | some cap => "💵 Found profit: $" ++ ⟨cap⟩
    | none => "❓ No specific profit information found."

/-- `SimpleQA._find_expense_info`. -/
def find_expense_info (doc : String) : String :=
  if containsStr doc "expense" then "💸 Expense information found in the document."
  else "❓ No expense information found."

/-- `SimpleQA._find_assets_info`. -/
def find_assets_info (doc : String) : String :=
  if containsStr doc "assets" then "🏢 Assets information found in the document."
  else "❓ No assets information found."

/-- `SimpleQA._general_search`: echo the question words longer than three
characters that occur verbatim in the document text. -/
def general_search (doc question : String) : String :=
  let words := (pySplit question.data).filter (fun w => w.length > 3)
  let found := words.filter (fun w => containsL w doc.data)
  if found ≠ [] then
    "🔍 Found references to: " ++ String.intercalate ", " (found.map fun w => (⟨w⟩ : String))
  else "❓ No specific information found for your question."

/-- `SimpleQA.answer_question` where `document_text` is the constructor
argument (lower-cased at construction) and the question is lower-cased on
entry; categories are tried in the source's order. -/
def answer_question (document_text question : String) : String :=
  let doc := lowerStr document_text
  let q := lowerStr question
  if containsStr q "revenue" || containsStr q "sales" || containsStr q "income" then
    find_revenue_info doc
  else if containsStr q "profit" || containsStr q "net income" then
    find_profit_info doc
  else if containsStr q "expense" || containsStr q "cost" then
    find_expense_info doc
  else if containsStr q "assets" then
    find_assets_info doc
  else general_search doc q

end SimpleQA

/-! ## DocumentProcessor (src/utils/document_processor.py) -/

namespace DocumentProcessor

/-- `DocumentProcessor._extract_text_metrics`, revenue phase: the three
revenue patterns in order, first matching pattern wins. -/
def revenuePhase (tl : List Char) (m : List (String × String)) : List (String × String) :=
  match searchNum "revenue".data tl with
  | some cap => dictInsert m "revenue" ⟨cap⟩
  | none =>
    match searchNum "total revenue".data tl with
    | some cap => dictInsert m "revenue" ⟨cap⟩
    | none =>
      match searchNum "sales".data tl with
      | some cap => dictInsert m "revenue" ⟨cap⟩
      | none => m

/-- `DocumentProcessor._extract_text_metrics`, profit phase: the two
profit patterns in order, first matching pattern wins. -/
def profitPhase (tl : List Char) (m : List (String × String)) : List (String × String) :=
  match searchNum "net income".data tl with
  | some cap => dictInsert m "profit" ⟨cap⟩
  | none =>
    match searchNum "profit".data tl with
    | some cap => dictInsert m "profit" ⟨cap⟩
    | none => m

/-- `DocumentProcessor._extract_text_metrics`: lower-case the text, then
run the revenue patterns and the profit patterns over it. -/
def extract_text_metrics (text : String) : List (String × String) :=
  profitPhase (lowerStr text).data (revenuePhase (lowerStr text).data [])

/-- The revenue condition of `_extract_excel_metrics`:
`'revenue' in df_text or 'sales' in df_text` on the lower-cased sheet. -/
def revSheetCond (sheetText : String) : Bool :=
  containsStr (lowerStr sheetText) "revenue" || containsStr (lowerStr sheetText) "sales"

/-- The profit condition of `_extract_excel_metrics`:
`'profit' in df_text or 'net income' in df_text` on the lower-cased sheet. -/
def profSheetCond (sheetText : String) : Bool :=
  containsStr (lowerStr sheetText) "profit" || containsStr (lowerStr sheetText) "net income"

/-- The sheet loop of `_extract_excel_metrics`: a sheet is a pair of its
name and its stringified content (`df.to_string()`). -/
def extractExcelGo (m : List (String × String)) :
    List (String × String) → List (String × String)
  | [] => m
  | (name, txt) :: rest =>
    let m1 := if revSheetCond txt then dictInsert m "revenue_sheet" name else m
    let m2 := if profSheetCond txt then dictInsert m1 "profit_sheet" name else m1
    extractExcelGo m2 rest

/-- `DocumentProcessor._extract_excel_metrics`. -/
def extract_excel_metrics (sheets : List (String × String)) : List (String × String) :=
  extractExcelGo [] sheets

/-- The last sheet, in iteration order, satisfying the condition — the
behaviour the overwriting dict assignment in `_extract_excel_metrics`
actually produces. -/
def lastMatchingSheet (cond : String → Bool) : List (String × String) → Option String
  | [] => none
  | (n, txt) :: t =>
    match lastMatchingSheet cond t with
    | some m => some m
    | none => if cond txt then some n else none

/-- `DocumentProcessor._contains_financial_keywords` on the stringified
sheet content. -/
def contains_financial_keywords (dfText : String) : Bool :=
  ["revenue", "income", "profit", "loss", "expense", "cost",
   "sales", "earnings", "ebitda", "assets", "liabilities",
   "equity", "cash", "debt", "balance", "statement"].any
    (fun k => containsStr (lowerStr dfText) k)

/-- `DocumentProcessor._identify_statement_type`. -/
def identify_statement_type (dfText : String) : String :=
  let t := lowerStr dfText
  if ["balance sheet", "assets", "liabilities"].any (fun w => containsStr t w) then
    "Balance Sheet"
  else if ["income statement", "revenue", "profit", "loss"].any (fun w => containsStr t w) then
    "Income Statement"
  else if ["cash flow", "operating", "investing", "financing"].any (fun w => containsStr t w) then
    "Cash Flow Statement"
  else "Financial Statement"

/-- A detected financial table: sheet name, its stringified data, and the
classified statement type. -/
structure FinTable where
  sheet_name : String
  data : String
  type : String
deriving DecidableEq

/-- The mutable processor state: `document_text`, `financial_tables`,
`financial_metrics`. -/
structure DocState where
  document_text : String
  financial_tables : List FinTable
  financial_metrics : List (String × String)
deriving DecidableEq

/-- Success payload of `_process_excel`. -/
structure ExcelPayload where
  sheets : List String
  total_sheets : Nat
  financial_tables_found : Nat
  data : List (String × String)
  text_for_ai : String
deriving DecidableEq

/-- Success payload of `_process_pdf`. -/
structure PdfPayload where
  pages : Nat
  text_length : Nat
  text_preview : String
  full_text : String
  text_for_ai : String
deriving DecidableEq

/-- Result dictionary of the processing entry points: a success payload
of either shape, or `{"success": False, "error": msg}`. -/
inductive PResult where
  | okExcel (p : ExcelPayload)
  | okPdf (p : PdfPayload)
  | err (msg : String)
deriving DecidableEq

/-- The per-sheet loop of `_process_excel`: record a financial table when
the keyword scan fires, then append the sheet header and stringified
content to `document_text`. -/
def excelLoop (st : DocState) : List (String × String) → DocState
  | [] => st
  | (name, txt) :: rest =>
    let st1 :=
      if contains_financial_keywords txt then
        { st with financial_tables :=
            st.financial_tables ++ [⟨name, txt, identify_statement_type txt⟩] }
      else st
    let st2 := { st1 with document_text :=
        st1.document_text ++ "\n\n--- Sheet: " ++ name ++ " ---\n" ++ txt }
    excelLoop st2 rest

/-- `DocumentProcessor._process_excel`: the spreadsheet reading backend is
abstracted as an `Except` value (an `error` models a raised exception,
caught by the method's own handler). -/
def process_excel (st : DocState) (excelRead : Except String (List (String × String))) :
    DocState × PResult :=
  match excelRead with
  | .error e => (st, .err ("Excel processing failed: " ++ e))
  | .ok sheets =>
    let st1 := excelLoop st sheets
    let st2 := { st1 with financial_metrics := extract_excel_metrics sheets }
    (st2, .okExcel
      { sheets := sheets.map Prod.fst
        total_sheets := sheets.length
        financial_tables_found := st2.financial_tables.length
        data := sheets
        text_for_ai := st2.document_text })

/-- `DocumentProcessor._process_pdf`: the PDF reading backend is
abstracted as the availability flag plus an `Except` list of per-page
extracted texts. -/
def process_pdf (st : DocState) (pdfAvailable : Bool)
    (pdfRead : Except String (List String)) : DocState × PResult :=
  if !pdfAvailable then
    (st, .err "PDF processing library not available. Install pypdf.")
  else
    match pdfRead with
    | .error e => (st, .err ("PDF processing failed: " ++ e))
    | .ok pages =>
      let text := String.intercalate "\n" pages
      let st1 := { st with document_text := text }
      let st2 := { st1 with financial_metrics := extract_text_metrics text }
      (st2, .okPdf
        { pages := pages.length
          text_length := text.length
          text_preview := if text.length > 500 then takeStr 500 text ++ "..." else text
          full_text := text
          text_for_ai := text })

/-- `DocumentProcessor.process_document`: dispatch on the classified file
type; in the embedding the dispatched methods are total (each catches its
backend's exceptions itself), so the outer catch-all never fires. -/
def process_document (st : DocState) (file_type : String)
    (excelRead : Except String (List (String × String)))
    (pdfAvailable : Bool) (pdfRead : Except String (List String)) : DocState × PResult :=
  if file_type = "excel" then process_excel st excelRead
  else if file_type = "pdf" then process_pdf st pdfAvailable pdfRead
  else (st, .err ("Unsupported file type: " ++ file_type))

end DocumentProcessor

/-! ## AIQuestionAnswering (src/utils/ai_qa.py) -/

namespace AIQA

/-- Result of `AIQuestionAnswering.answer_question`: the returned answer,
whether `ollama.chat` was invoked, and the updated conversation history. -/
structure QAResult where
  answer : String
  modelCalled : Bool
  conversation_history : List (String × String)

/-- `AIQuestionAnswering._emergency_override`: the hardcoded answer layer,
checked in source order; `"CONTINUE_WITH_AI"` signals no override. -/
def emergency_override (question document_context : String) : String :=
  let ql := lowerStr question
  if (containsStr ql "revenue" || containsStr ql "sales")
      && containsStr (lowerStr document_context) "joe" then
    "The total sales revenue is $52,000 based on 1,000 tyres sold at $52 each."
  else if containsStr ql "profit" && containsStr ql "gross" then
    "The gross profit is $20,800."
  else if containsStr ql "profit" && containsStr ql "net" then
    "The net profit is $5,200."
  else if containsStr ql "advertising" then
    "The advertising expense is $500."
  else "CONTINUE_WITH_AI"

/-- `AIQuestionAnswering._clean_response`: spacing fixes, known
concatenation fixes, currency-symbol insertion, whitespace normalisation. -/
def clean_response (response : String) : String :=
  let r1 : String := ⟨subDigitLetter response.data⟩
  let r2 : String := ⟨subLetterDigit r1.data⟩
  let r3 := pyReplace "basedon" "based on" r2
  let r4 := pyReplace "soldat" "sold at" r3
  let r5 := pyReplace "tyresat" "tyres at" r4
  let r6 :=
    if !containsStr r5 "$" && containsStr (lowerStr r5) "revenue" then
      pyReplace "52 each" "$52 each" (pyReplace "52,000" "$52,000" r5)
    else r5
  pyStrip ⟨List.intercalate [' '] (pySplit r6.data)⟩

/-- `AIQuestionAnswering._create_financial_prompt` (the triple-quoted
f-string keeps its four-space indentation). -/
def create_financial_prompt (question document_context : String) : String :=
  "Based on this financial document, answer the question directly and concisely.\n\n    DOCUMENT DATA:\n    "
    ++ takeStr 2000 document_context
    ++ "\n\n    QUESTION: " ++ question
    ++ "\n\n    Give a direct answer in one clear sentence. If you find a specific number, include it. If information is missing, say \"Information not available in document.\"\n\n    ANSWER:"

/-- `AIQuestionAnswering._ensure_clean_response`: template-artifact
detection with canned repairs. -/
def ensure_clean_response (response question document_context : String) : String :=
  if containsStr response "XX" || containsStr response "Instructions:"
      || containsStr response "Direct answer sentence:" || containsStr response "AI Response:" then
    if (containsStr (lowerStr question) "revenue" || containsStr (lowerStr question) "sales")
        && (containsStr document_context "52000" || containsStr document_context "52,000") then
      "The total sales revenue is $52,000."
    else if containsStr (lowerStr question) "profit" && containsStr (lowerStr question) "gross"
        && (containsStr document_context "20800" || containsStr document_context "20,800") then
      "The gross profit is $20,800."
    else "I found financial information in the document but cannot provide a specific answer."
  else response

/-- `AIQuestionAnswering._validate_response`: suspicious-word flagging and
the expected-figure check for revenue answers. -/
def validate_response (answer document_context : String) : String :=
  let al := lowerStr answer
  if ["million", "billion", "1,234,567", "999,999",
      "approximately", "estimated", "roughly"].any (fun p => containsStr al p) then
    "⚠️ VALIDATION WARNING: This response may be inaccurate. Please verify against the source document.\n\nOriginal response: "
      ++ answer
  else if (containsStr document_context "52000" || containsStr document_context "52,000")
      && (containsStr al "revenue" || containsStr al "sales")
      && !containsStr answer "52,000" && !containsStr answer "52000" then
    "⚠️ Expected sales figure of $52,000 based on document content.\n\nAI Response: " ++ answer
  else answer

/-- `AIQuestionAnswering.answer_question`: the override layer first; only
when it signals `"CONTINUE_WITH_AI"` is the external model consulted.
The model is abstracted as an oracle from the prompt to either the reply
content or a raised exception (caught by the method's handler). -/
def answer_question (oracle : String → Except String String)
    (question document_context : String)
    (history : List (String × String)) : QAResult :=
  let ov := emergency_override question document_context
  if ov = "CONTINUE_WITH_AI" then
    match oracle (create_financial_prompt question document_context) with
    | .error e =>
      let msg := "❌ Error processing question: " ++ e
      ⟨msg, true, history ++ [(question, msg)]⟩
    | .ok content =>
      let a1 := clean_response (pyStrip content)
      let a2 := ensure_clean_response a1 question document_context
      let a3 := validate_response a2 document_context
      ⟨a3, true, history ++ [(question, a3)]⟩
  else
    let cleaned := clean_response ov
    ⟨cleaned, false, history ++ [(question, cleaned)]⟩

/-- `AIQuestionAnswering.clear_history`. -/
def clear_history (_conversation_history : List (String × String)) :
    List (String × String) := []

end AIQA

/-! ## Session state of the app shell (src/app.py) -/

/-- One entry of `st.session_state.chat_history`. -/
structure ChatTurn where
  question : String
  answer : String
  ai_powered : Bool
deriving DecidableEq

/-- The session state the chat page manipulates: the stored processing
result, the processor (extraction state), the model conversation history
and the displayed chat log. -/
structure SessionState where
  processed_data : Option DocumentProcessor.PResult
  document_processor : DocumentProcessor.DocState
  conversation_history : List (String × String)
  chat_history : List ChatTurn

/-- The `Clear Chat History` button handler (src/app.py lines 238-241):
empty the chat log and call `ai_qa.clear_history()`. -/
def clearChatHistory (s : SessionState) : SessionState :=
  { s with chat_history := [],
           conversation_history := AIQA.clear_history s.conversation_history }

/-! ## Supporting lemmas -/

theorem data_append (a b : String) : (a ++ b).data = a.data ++ b.data := by
  cases a; cases b; rfl

theorem string_append_ne_empty_left (a b : String) (h : a.data ≠ []) : a ++ b ≠ "" := by
  intro hEq
  apply h
  have hd : (a ++ b).data = ("" : String).data := by rw [hEq]
  rw [data_append] at hd
  exact (List.append_eq_nil.mp hd).1

theorem lowerStr_append (a b : String) : lowerStr (a ++ b) = lowerStr a ++ lowerStr b := by
  cases a with
  | mk la =>
    cases b with
    | mk lb =>
      show String.mk ((la ++ lb).map Char.toLower)
        = String.mk (la.map Char.toLower) ++ String.mk (lb.map Char.toLower)
      rw [List.map_append]
      rfl

theorem isPrefixL_append_self (p r : List Char) : isPrefixL p (p ++ r) = true := by
  induction p with
  | nil => rfl
  | cons a as ih => simp [isPrefixL, ih]

theorem containsL_of_isPrefixL {p l : List Char} (h : isPrefixL p l = true) :
    containsL p l = true := by
  cases l with
  | nil => simpa [containsL] using h
  | cons c t => simp [containsL, h]

theorem containsL_append_mid (p a b : List Char) : containsL p (a ++ (p ++ b)) = true := by
  induction a with
  | nil => exact containsL_of_isPrefixL (isPrefixL_append_self p b)
  | cons c a ih => simp [containsL, ih]

theorem isPrefixL_exists {p l : List Char} (h : isPrefixL p l = true) : ∃ r, l = p ++ r := by
  induction p generalizing l with
  | nil => exact ⟨l, rfl⟩
  | cons a as ih =>
    cases l with
    | nil => simp [isPrefixL] at h
    | cons b bs =>
      simp only [isPrefixL, Bool.and_eq_true, beq_iff_eq] at h
      obtain ⟨rfl, h2⟩ := h
      obtain ⟨r, rfl⟩ := ih h2
      exact ⟨r, rfl⟩

theorem containsL_exists {p l : List Char} (h : containsL p l = true) :
    ∃ a b, l = a ++ (p ++ b) := by
  induction l with
  | nil =>
    simp only [containsL] at h
    obtain ⟨r, hr⟩ := isPrefixL_exists h
    exact ⟨[], r, hr⟩
  | cons c t ih =>
    simp only [containsL, Bool.or_eq_true] at h
    rcases h with h | h
    · obtain ⟨r, hr⟩ := isPrefixL_exists h
      exact ⟨[], r, hr⟩
    · obtain ⟨a, b, rfl⟩ := ih h
      exact ⟨c :: a, b, rfl⟩

theorem searchNum_isSome_append (lit a l : List Char)
    (h : (matchNumAt lit l).isSome = true) :
    (searchNum lit (a ++ l)).isSome = true := by
  induction a with
  | nil =>
    cases l with
    | nil => simpa [searchNum] using h
    | cons c t =>
      simp only [List.nil_append, searchNum]
      cases hm : matchNumAt lit (c :: t) with
      | some cap => simp
      | none => rw [hm] at h; simp at h
  | cons c a ih =>
    simp only [List.cons_append, searchNum]
    cases hm : matchNumAt lit (c :: (a ++ l)) with
    | some cap => simp
    | none => simpa using ih

theorem dictLookup_dictInsert_self (m : List (String × String)) (k v : String) :
    dictLookup k (dictInsert m k v) = some v := by
  induction m with
  | nil => simp [dictInsert, dictLookup]
  | cons p t ih =>
    obtain ⟨k2, v2⟩ := p
    by_cases h : k2 = k
    · subst h; simp [dictInsert, dictLookup]
    · simp [dictInsert, dictLookup, h, ih]

theorem dictLookup_dictInsert_other {k k2 : String} (m : List (String × String)) (v : String)
    (h : k ≠ k2) : dictLookup k (dictInsert m k2 v) = dictLookup k m := by
  have hne : ¬ (k2 = k) := fun hh => h hh.symm
  induction m with
  | nil => simp [dictInsert, dictLookup, hne]
  | cons p t ih =>
    obtain ⟨k3, v3⟩ := p
    by_cases h3 : k3 = k2
    · subst h3
      have hk : ¬ (k3 = k) := fun hh => h hh.symm
      simp [dictInsert, dictLookup, hk]
    · simp only [dictInsert, if_neg h3]
      by_cases hk : k3 = k
      · simp [dictLookup, hk]
      · simp [dictLookup, hk, ih]

theorem dictKeys_cons (k2 v2 : String) (t : List (String × String)) :
    dictKeys ((k2, v2) :: t) = k2 :: dictKeys t := rfl

theorem mem_dictKeys_dictInsert {m : List (String × String)} {k v x : String}
    (h : x ∈ dictKeys (dictInsert m k v)) : x = k ∨ x ∈ dictKeys m := by
  induction m with
  | nil => exact Or.inl (by simpa [dictInsert, dictKeys] using h)
  | cons p t ih =>
    obtain ⟨k2, v2⟩ := p
    by_cases h2 : k2 = k
    · subst h2
      rw [dictInsert, if_pos rfl, dictKeys_cons] at h
      rw [dictKeys_cons]
      rcases List.mem_cons.mp h with hx | hx
      · exact Or.inl hx
      · exact Or.inr (List.mem_cons.mpr (Or.inr hx))
    · rw [dictInsert, if_neg h2, dictKeys_cons] at h
      rw [dictKeys_cons]
      rcases List.mem_cons.mp h with hx | hx
      · exact Or.inr (List.mem_cons.mpr (Or.inl hx))
      · rcases ih hx with hy | hy
        · exact Or.inl hy
        · exact Or.inr (List.mem_cons.mpr (Or.inr hy))

theorem dictLookup_eq_none {k : String} {m : List (String × String)}
    (h : k ∉ dictKeys m) : dictLookup k m = none := by
  induction m with
  | nil => rfl
  | cons p t ih =>
    obtain ⟨k2, v2⟩ := p
    rw [dictKeys_cons] at h
    have h1 : ¬ (k2 = k) := fun hh => h (List.mem_cons.mpr (Or.inl hh.symm))
    have h2 : k ∉ dictKeys t := fun hh => h (List.mem_cons.mpr (Or.inr hh))
    simp only [dictLookup, if_neg h1]
    exact ih h2

/-! ## Lemmas about the metric extraction phases -/

namespace DocumentProcessor

theorem matchNumAt_revenue_pattern (b : List Char) :
    (matchNumAt "revenue".data ("revenue: $52,000".data ++ b)).isSome = true := rfl

theorem matchNumAt_net_income_pattern (b : List Char) :
    (matchNumAt "net income".data ("net income: $5,200".data ++ b)).isSome = true := rfl

theorem revenuePhase_of_first {tl : List Char} {cap : List Char}
    (m : List (String × String)) (h : searchNum "revenue".data tl = some cap) :
    revenuePhase tl m = dictInsert m "revenue" ⟨cap⟩ := by
  unfold revenuePhase
  rw [h]

theorem profitPhase_of_first {tl : List Char} {cap : List Char}
    (m : List (String × String)) (h : searchNum "net income".data tl = some cap) :
    profitPhase tl m = dictInsert m "profit" ⟨cap⟩ := by
  unfold profitPhase
  rw [h]

theorem dictLookup_revenue_profitPhase (tl : List Char) (m : List (String × String)) :
    dictLookup "revenue" (profitPhase tl m) = dictLookup "revenue" m := by
  unfold profitPhase
  have hne : ("revenue" : String) ≠ "profit" := by decide
  cases h1 : searchNum "net income".data tl with
  | some cap => exact dictLookup_dictInsert_other m _ hne
  | none =>
    cases h2 : searchNum "profit".data tl with
    | some cap => exact dictLookup_dictInsert_other m _ hne
    | none => rfl

theorem mem_dictKeys_profitPhase {tl : List Char} {m : List (String × String)} {x : String}
    (h : x ∈ dictKeys (profitPhase tl m)) : x = "profit" ∨ x ∈ dictKeys m := by
  unfold profitPhase at h
  cases h1 : searchNum "net income".data tl with
  | some cap => rw [h1] at h; exact mem_dictKeys_dictInsert h
  | none =>
    rw [h1] at h
    cases h2 : searchNum "profit".data tl with
    | some cap => rw [h2] at h; exact mem_dictKeys_dictInsert h
    | none => rw [h2] at h; exact Or.inr h

theorem mem_dictKeys_revenuePhase {tl : List Char} {m : List (String × String)} {x : String}
    (h : x ∈ dictKeys (revenuePhase tl m)) : x = "revenue" ∨ x ∈ dictKeys m := by
  unfold revenuePhase at h
  cases h1 : searchNum "revenue".data tl with
  | some cap => rw [h1] at h; exact mem_dictKeys_dictInsert h
  | none =>
    rw [h1] at h
    cases h2 : searchNum "total revenue".data tl with
    | some cap => rw [h2] at h; exact mem_dictKeys_dictInsert h
    | none =>
      rw [h2] at h
      cases h3 : searchNum "sales".data tl with
      | some cap => rw [h3] at h; exact mem_dictKeys_dictInsert h
      | none => rw [h3] at h; exact Or.inr h

theorem mem_dictKeys_extractExcelGo :
    ∀ (sheets : List (String × String)) (m : List (String × String)) (x : String),
      x ∈ dictKeys (extractExcelGo m sheets) →
      x = "revenue_sheet" ∨ x = "profit_sheet" ∨ x ∈ dictKeys m := by
  intro sheets
  induction sheets with
  | nil => intro m x h; exact Or.inr (Or.inr h)
  | cons s rest ih =>
    obtain ⟨name, txt⟩ := s
    intro m x h
    rcases ih _ x h with h1 | h1 | h1
    · exact Or.inl h1
    · exact Or.inr (Or.inl h1)
    · by_cases hp : profSheetCond txt = true
      · rw [if_pos hp] at h1
        rcases mem_dictKeys_dictInsert h1 with h2 | h2
        · exact Or.inr (Or.inl h2)
        · by_cases hr : revSheetCond txt = true
          · rw [if_pos hr] at h2
            rcases mem_dictKeys_dictInsert h2 with h3 | h3
            · exact Or.inl h3
            · exact Or.inr (Or.inr h3)
          · rw [if_neg hr] at h2; exact Or.inr (Or.inr h2)
      · rw [if_neg hp] at h1
        by_cases hr : revSheetCond txt = true
        · rw [if_pos hr] at h1
          rcases mem_dictKeys_dictInsert h1 with h3 | h3
          · exact Or.inl h3
          · exact Or.inr (Or.inr h3)
        · rw [if_neg hr] at h1; exact Or.inr (Or.inr h1)

theorem dictLookup_revenue_sheet_extractExcelGo :
    ∀ (sheets : List (String × String)) (m : List (String × String)),
      dictLookup "revenue_sheet" (extractExcelGo m sheets) =
        match lastMatchingSheet revSheetCond sheets with
        | some n => some n
        | none => dictLookup "revenue_sheet" m := by
  intro sheets
  induction sheets with
  | nil => intro m; rfl
  | cons s rest ih =>
    obtain ⟨name, txt⟩ := s
    intro m
    show dictLookup "revenue_sheet" (extractExcelGo _ rest) = _
    rw [ih]
    cases hl : lastMatchingSheet revSheetCond rest with
    | some x => simp [lastMatchingSheet, hl]
    | none =>
      simp only [lastMatchingSheet, hl]
      have hprof : ∀ m2, dictLookup "revenue_sheet"
          (if profSheetCond txt = true then dictInsert m2 "profit_sheet" name else m2)
          = dictLookup "revenue_sheet" m2 := by
        intro m2
        by_cases hp : profSheetCond txt = true
        · rw [if_pos hp]; exact dictLookup_dictInsert_other m2 _ (by decide)
        · rw [if_neg hp]
      rw [hprof]
      by_cases hr : revSheetCond txt = true
      · rw [if_pos hr, if_pos hr, dictLookup_dictInsert_self]
      · rw [if_neg hr, if_neg hr]

theorem dictLookup_profit_sheet_extractExcelGo :
    ∀ (sheets : List (String × String)) (m : List (String × String)),
      dictLookup "profit_sheet" (extractExcelGo m sheets) =
        match lastMatchingSheet profSheetCond sheets with
        | some n => some n
        | none => dictLookup "profit_sheet" m := by
  intro sheets
  induction sheets with
  | nil => intro m; rfl
  | cons s rest ih =>
    obtain ⟨name, txt⟩ := s
    intro m
    show dictLookup "profit_sheet" (extractExcelGo _ rest) = _
    rw [ih]
    cases hl : lastMatchingSheet profSheetCond rest with
    | some x => simp [lastMatchingSheet, hl]
    | none =>
      simp only [lastMatchingSheet, hl]
      by_cases hp : profSheetCond txt = true
      · rw [if_pos hp, if_pos hp, dictLookup_dictInsert_self]
      · rw [if_neg hp, if_neg hp]
        by_cases hr : revSheetCond txt = true
        · rw [if_pos hr]; exact dictLookup_dictInsert_other m _ (by decide)
        · rw [if_neg hr]

end DocumentProcessor

/-! ## Lemmas for the fallback answerer -/

theorem containsStr_exists {s pat : String} (h : containsStr s pat = true) :
    ∃ a b, s.data = a ++ (pat.data ++ b) :=
  containsL_exists h

theorem append_eq_mk (a b : String) : a ++ b = ⟨a.data ++ b.data⟩ := by
  cases a; cases b; rfl

theorem find_profit_info_on_pattern (r : List Char) :
    SimpleQA.find_profit_info ⟨"profit: $10,000".data ++ r⟩
      = "💵 Found profit: $"
          ++ ⟨'1' :: '0' :: ',' :: '0' :: '0' :: '0' :: r.takeWhile isDigitComma⟩ := rfl

theorem contains_ten_thousand (b : List Char) :
    containsStr ("💵 Found profit: $" ++ ⟨'1' :: '0' :: ',' :: '0' :: '0' :: '0' :: b⟩)
      "10,000" = true := by
  show containsL "10,000".data
    (("💵 Found profit: $" ++ (⟨'1' :: '0' :: ',' :: '0' :: '0' :: '0' :: b⟩ : String)).data) = true
  rw [data_append]
  exact containsL_append_mid "10,000".data "💵 Found profit: $".data b

/-! ## Claim theorems -/

/-- C1 counterexample: a spreadsheet whose single sheet's stringified text
contains the occurrence `revenue: $52,000` of the numeric revenue pattern,
yet the spreadsheet path's metrics map has no `revenue` key (its only key
is `revenue_sheet`): the numeric regex scan does not run on the
spreadsheet path, contradicting the claim's "both paths". -/
theorem spreadsheet_path_no_numeric_metrics :
    containsStr "revenue: $52,000" "revenue: $52,000" = true
    ∧ dictLookup "revenue"
        (DocumentProcessor.extract_excel_metrics [("Sheet1", "revenue: $52,000")]) = none
    ∧ dictKeys (DocumentProcessor.extract_excel_metrics [("Sheet1", "revenue: $52,000")])
        = ["revenue_sheet"] := by decide

/-- C1 (amended): only the PDF path runs the numeric regex scan over the
full concatenated text: `_extract_text_metrics` populates `revenue` when
the lower-cased text contains a revenue-pattern occurrence such as
`revenue: $52,000`, and `profit` when it contains a profit-pattern
occurrence such as `net income: $5,200` (first matching pattern per
category wins); the spreadsheet path instead calls
`_extract_excel_metrics`, which never produces `revenue`/`profit` keys. -/
theorem pdf_path_numeric_metric_scan (t : String) :
    (containsStr (lowerStr t) "revenue: $52,000" = true →
      dictLookup "revenue" (DocumentProcessor.extract_text_metrics t) ≠ none)
    ∧ (containsStr (lowerStr t) "net income: $5,200" = true →
      dictLookup "profit" (DocumentProcessor.extract_text_metrics t) ≠ none)
    ∧ (∀ sheets : List (String × String),
      dictLookup "revenue" (DocumentProcessor.extract_excel_metrics sheets) = none
      ∧ dictLookup "profit" (DocumentProcessor.extract_excel_metrics sheets) = none) := by
  refine ⟨?_, ?_, ?_⟩
  · intro h
    obtain ⟨a, b, hab⟩ := containsStr_exists h
    have hs : (searchNum "revenue".data (lowerStr t).data).isSome = true := by
      rw [hab]
      exact searchNum_isSome_append _ a _ (DocumentProcessor.matchNumAt_revenue_pattern b)
    obtain ⟨cap, hc⟩ := Option.isSome_iff_exists.mp hs
    unfold DocumentProcessor.extract_text_metrics
    rw [DocumentProcessor.dictLookup_revenue_profitPhase,
      DocumentProcessor.revenuePhase_of_first _ hc, dictLookup_dictInsert_self]
    simp
  · intro h
    obtain ⟨a, b, hab⟩ := containsStr_exists h
    have hs : (searchNum "net income".data (lowerStr t).data).isSome = true := by
      rw [hab]
      exact searchNum_isSome_append _ a _ (DocumentProcessor.matchNumAt_net_income_pattern b)
    obtain ⟨cap, hc⟩ := Option.isSome_iff_exists.mp hs
    unfold DocumentProcessor.extract_text_metrics
    rw [DocumentProcessor.profitPhase_of_first _ hc, dictLookup_dictInsert_self]
    simp
  · intro sheets
    constructor <;>
    · show dictLookup _ (DocumentProcessor.extractExcelGo [] sheets) = none
      apply dictLookup_eq_none
      intro hmem
      rcases DocumentProcessor.mem_dictKeys_extractExcelGo sheets [] _ hmem with h | h | h
      · exact absurd h (by decide)
      · exact absurd h (by decide)
      · exact absurd h (List.not_mem_nil _)

/-- C1 witness: a concrete text containing both pattern occurrences, for
which the PDF-path scan populates the `revenue` key. -/
theorem pdf_path_numeric_metric_scan_w :
    containsStr (lowerStr "Revenue: $52,000 and Net Income: $5,200") "revenue: $52,000" = true
    ∧ dictLookup "revenue"
        (DocumentProcessor.extract_text_metrics "Revenue: $52,000 and Net Income: $5,200")
      ≠ none :=
  ⟨by decide,
    (pdf_path_numeric_metric_scan "Revenue: $52,000 and Net Income: $5,200").1 (by decide)⟩

/-- C2: for every question containing "revenue" or "sales" and every
context containing "joe" (case-insensitive), the model-backed
`answer_question` returns exactly the literal override answer and never
invokes the model oracle, whatever the oracle would have replied. -/
theorem ai_revenue_override (oracle : String → Except String String)
    (q ctx : String) (hist : List (String × String))
    (hq : containsStr (lowerStr q) "revenue" = true ∨ containsStr (lowerStr q) "sales" = true)
    (hc : containsStr (lowerStr ctx) "joe" = true) :
    (AIQA.answer_question oracle q ctx hist).answer
      = "The total sales revenue is $52,000 based on 1,000 tyres sold at $52 each."
    ∧ (AIQA.answer_question oracle q ctx hist).modelCalled = false := by
  have hov : AIQA.emergency_override q ctx
      = "The total sales revenue is $52,000 based on 1,000 tyres sold at $52 each." := by
    unfold AIQA.emergency_override
    rcases hq with h | h <;> simp [h, hc]
  have hne : ¬ ("The total sales revenue is $52,000 based on 1,000 tyres sold at $52 each."
      = "CONTINUE_WITH_AI") := by decide
  simp only [AIQA.answer_question, hov, if_neg hne]
  exact ⟨by decide, by trivial⟩

/-- C2 witness: a concrete revenue question over a joe-mentioning context
returns the literal, with a live oracle standing by unused. -/
theorem ai_revenue_override_w :
    containsStr (lowerStr "What is the total revenue?") "revenue" = true
    ∧ containsStr (lowerStr "Joe Motorbike Tyres accounts") "joe" = true
    ∧ (AIQA.answer_question (fun _ => Except.ok "model reply")
        "What is the total revenue?" "Joe Motorbike Tyres accounts" []).answer
      = "The total sales revenue is $52,000 based on 1,000 tyres sold at $52 each." :=
  ⟨by decide, by decide,
    (ai_revenue_override (fun _ => Except.ok "model reply")
      "What is the total revenue?" "Joe Motorbike Tyres accounts" []
      (Or.inl (by decide)) (by decide)).1⟩

/-- C3: every upload strictly larger than 50 MiB is rejected with the
size-exceeded error whatever its name or extension (the size check runs
before the extension check), and an upload of exactly 50 MiB is never
rejected for size. -/
theorem validate_file_size_ceiling (name : String) (size : Nat)
    (h : size > FileHandler.MAX_FILE_SIZE) :
    FileHandler.validate_file name size
      = FileHandler.Validation.invalid "File too large. Max size: 50MB"
    ∧ ∀ name2 : String, FileHandler.validate_file name2 FileHandler.MAX_FILE_SIZE
        ≠ FileHandler.Validation.invalid "File too large. Max size: 50MB" := by
  constructor
  · unfold FileHandler.validate_file
    rw [if_pos h]
  · intro name2
    unfold FileHandler.validate_file
    rw [if_neg (lt_irrefl _)]
    split
    · decide
    · simp

/-- C3 witness: a file one byte over the ceiling is rejected for size. -/
theorem validate_file_size_ceiling_w :
    FileHandler.MAX_FILE_SIZE + 1 > FileHandler.MAX_FILE_SIZE
    ∧ FileHandler.validate_file "report.xlsx" (FileHandler.MAX_FILE_SIZE + 1)
      = FileHandler.Validation.invalid "File too large. Max size: 50MB" :=
  ⟨Nat.lt_succ_self _,
    (validate_file_size_ceiling "report.xlsx" _ (Nat.lt_succ_self _)).1⟩

/-- C4: under the size ceiling, a filename whose lower-cased stripped
extension is outside {pdf, xlsx, xls, xlsm} fails with the
unsupported-format error; one inside succeeds, echoing the classified
type, the extension, the size and the name, and the classification is
total and deterministic: `pdf` maps to "pdf" and `xlsx`, `xls`, `xlsm`
map to "excel". -/
theorem validate_file_classification (name : String) (size : Nat)
    (h : size ≤ FileHandler.MAX_FILE_SIZE) :
    (FileHandler.supported_extensions.contains (FileHandler.file_extension name) = false →
      FileHandler.validate_file name size
        = FileHandler.Validation.invalid "Unsupported format. Supported: pdf, xlsx, xls, xlsm")
    ∧ (FileHandler.supported_extensions.contains (FileHandler.file_extension name) = true →
      FileHandler.validate_file name size
        = FileHandler.Validation.valid
            (FileHandler.get_file_type (FileHandler.file_extension name))
            (FileHandler.file_extension name) size name)
    ∧ FileHandler.get_file_type "pdf" = "pdf"
    ∧ FileHandler.get_file_type "xlsx" = "excel"
    ∧ FileHandler.get_file_type "xls" = "excel"
    ∧ FileHandler.get_file_type "xlsm" = "excel" := by
  have hns : ¬ size > FileHandler.MAX_FILE_SIZE := Nat.not_lt.mpr h
  refine ⟨?_, ?_, by decide, by decide, by decide, by decide⟩
  · intro hc
    unfold FileHandler.validate_file
    rw [if_neg hns, if_pos (by rw [hc]; rfl)]
    decide
  · intro hc
    unfold FileHandler.validate_file
    rw [if_neg hns, if_neg (by rw [hc]; decide)]

/-- C4 witness: `report.xlsx` at 1024 bytes validates as an excel file
echoing its extension, size and name. -/
theorem validate_file_classification_w :
    FileHandler.supported_extensions.contains (FileHandler.file_extension "report.xlsx") = true
    ∧ FileHandler.validate_file "report.xlsx" 1024
      = FileHandler.Validation.valid "excel" "xlsx" 1024 "report.xlsx" :=
  ⟨by decide,
    ((validate_file_classification "report.xlsx" 1024 (by decide)).2.1 (by decide)).trans
      (by decide)⟩

/-- C5 counterexample: two sheets both containing "revenue"; sheet `A`
satisfies the claim's hypothesis, but `revenue_sheet` ends up `B`, not
`A` — the universally quantified "maps `revenue_sheet` to S" is false
because later matching sheets overwrite earlier ones. -/
theorem excel_sheet_metrics_overwrite :
    containsStr (lowerStr "Revenue 100") "revenue" = true
    ∧ dictLookup "revenue_sheet"
        (DocumentProcessor.extract_excel_metrics [("A", "Revenue 100"), ("B", "Revenue 200")])
      = some "B"
    ∧ some ("B" : String) ≠ some ("A" : String) := by decide

/-- C5 (amended): `revenue_sheet` records the last sheet in iteration
order whose stringified content contains "revenue" or "sales"
(case-insensitive) — each matching sheet overwrites the previous
assignment — and symmetrically `profit_sheet` records the last sheet
containing "profit" or "net income". -/
theorem excel_sheet_metrics_last_wins (sheets : List (String × String)) :
    dictLookup "revenue_sheet" (DocumentProcessor.extract_excel_metrics sheets)
      = DocumentProcessor.lastMatchingSheet DocumentProcessor.revSheetCond sheets
    ∧ dictLookup "profit_sheet" (DocumentProcessor.extract_excel_metrics sheets)
      = DocumentProcessor.lastMatchingSheet DocumentProcessor.profSheetCond sheets := by
  constructor
  · show dictLookup _ (DocumentProcessor.extractExcelGo [] sheets) = _
    rw [DocumentProcessor.dictLookup_revenue_sheet_extractExcelGo]
    cases DocumentProcessor.lastMatchingSheet DocumentProcessor.revSheetCond sheets <;> rfl
  · show dictLookup _ (DocumentProcessor.extractExcelGo [] sheets) = _
    rw [DocumentProcessor.dictLookup_profit_sheet_extractExcelGo]
    cases DocumentProcessor.lastMatchingSheet DocumentProcessor.profSheetCond sheets <;> rfl

/-- C6 counterexample: the question "income profit" contains "profit" and
the document text contains `profit: $10,000`, but the dispatcher checks
the revenue-category words first and "income" routes the question to the
revenue handler, whose answer does not contain "10,000". -/
theorem fallback_profit_number_ce :
    containsStr "income profit" "profit" = true
    ∧ containsStr "profit: $10,000" "profit: $10,000" = true
    ∧ SimpleQA.answer_question "profit: $10,000" "income profit"
        = "❓ No specific revenue information found."
    ∧ containsStr (SimpleQA.answer_question "profit: $10,000" "income profit") "10,000"
        = false := by decide

/-- C6 (amended): for a question containing "profit" and none of the
revenue-category words "revenue"/"sales"/"income" (which the dispatcher
checks first, routing such questions to the revenue handler instead), and
a document text whose first profit-pattern match captures "10,000" — in
particular any text beginning with `profit: $10,000` — the fallback answer
contains "10,000": the profit handler returns the first captured numeric
group of its first regex. -/
theorem fallback_profit_number (q rest : String)
    (hp : containsStr (lowerStr q) "profit" = true)
    (h1 : containsStr (lowerStr q) "revenue" = false)
    (h2 : containsStr (lowerStr q) "sales" = false)
    (h3 : containsStr (lowerStr q) "income" = false) :
    containsStr (SimpleQA.answer_question ("profit: $10,000" ++ rest) q) "10,000" = true := by
  have hd : SimpleQA.answer_question ("profit: $10,000" ++ rest) q
      = SimpleQA.find_profit_info (lowerStr ("profit: $10,000" ++ rest)) := by
    simp only [SimpleQA.answer_question, h1, h2, h3, hp]
    simp
  rw [hd, lowerStr_append, show lowerStr "profit: $10,000" = "profit: $10,000" by decide,
    append_eq_mk, find_profit_info_on_pattern]
  exact contains_ten_thousand _

/-- C6 witness: a concrete profit question over a text starting with the
profit figure produces an answer containing "10,000". -/
theorem fallback_profit_number_w :
    containsStr (lowerStr "What was the profit?") "profit" = true
    ∧ containsStr
        (SimpleQA.answer_question ("profit: $10,000" ++ " for the year") "What was the profit?")
        "10,000" = true :=
  ⟨by decide,
    fallback_profit_number "What was the profit?" " for the year"
      (by decide) (by decide) (by decide) (by decide)⟩

/-- C7: `process_document` always returns a structured result — a success
payload or a failure carrying a non-empty human-readable message — for
every processor state, file type and backend outcome (each path catches
its backend's exceptions); in particular, with no PDF decoding library
available, processing a PDF yields the structured library-missing failure
rather than a crash. -/
theorem process_document_structured (st : DocumentProcessor.DocState) (ft : String)
    (er : Except String (List (String × String))) (pa : Bool)
    (pr : Except String (List String)) :
    ((∃ p, (DocumentProcessor.process_document st ft er pa pr).2
        = DocumentProcessor.PResult.okExcel p)
      ∨ (∃ p, (DocumentProcessor.process_document st ft er pa pr).2
        = DocumentProcessor.PResult.okPdf p)
      ∨ (∃ m, (DocumentProcessor.process_document st ft er pa pr).2
        = DocumentProcessor.PResult.err m ∧ m ≠ ""))
    ∧ (DocumentProcessor.process_document st "pdf" er false pr).2
        = DocumentProcessor.PResult.err
            "PDF processing library not available. Install pypdf." := by
  constructor
  · unfold DocumentProcessor.process_document
    by_cases he : ft = "excel"
    · rw [if_pos he]
      unfold DocumentProcessor.process_excel
      cases er with
      | error e =>
        exact Or.inr (Or.inr ⟨"Excel processing failed: " ++ e, rfl,
          string_append_ne_empty_left _ _ (by decide)⟩)
      | ok sheets => exact Or.inl ⟨_, rfl⟩
    · rw [if_neg he]
      by_cases hpd : ft = "pdf"
      · rw [if_pos hpd]
        unfold DocumentProcessor.process_pdf
        cases pa with
        | false => exact Or.inr (Or.inr ⟨_, rfl, by decide⟩)
        | true =>
          cases pr with
          | error e =>
            exact Or.inr (Or.inr ⟨"PDF processing failed: " ++ e, rfl,
              string_append_ne_empty_left _ _ (by decide)⟩)
          | ok pages => exact Or.inr (Or.inl ⟨_, rfl⟩)
      · rw [if_neg hpd]
        exact Or.inr (Or.inr ⟨"Unsupported file type: " ++ ft, rfl,
          string_append_ne_empty_left _ _ (by decide)⟩)
  · rfl

/-- C8: clearing the chat history empties the chat log and the model
conversation history while leaving the stored processing result and the
entire extraction state — document text, detected financial tables and
extracted metrics — unchanged. -/
theorem clear_chat_history_frame (s : SessionState) :
    (clearChatHistory s).chat_history = []
    ∧ (clearChatHistory s).conversation_history = []
    ∧ (clearChatHistory s).processed_data = s.processed_data
    ∧ (clearChatHistory s).document_processor = s.document_processor
    ∧ (clearChatHistory s).document_processor.document_text
        = s.document_processor.document_text
    ∧ (clearChatHistory s).document_processor.financial_tables
        = s.document_processor.financial_tables
    ∧ (clearChatHistory s).document_processor.financial_metrics
        = s.document_processor.financial_metrics :=
  ⟨rfl, rfl, rfl, rfl, rfl, rfl, rfl⟩

/-- C9: on both extraction paths the metrics map's keys always lie in the
fixed vocabulary {revenue, profit, revenue_sheet, profit_sheet}, and a
sparse or empty metrics map never causes an error: both paths succeed on
any readable input regardless of what the metric scans find. -/
theorem metrics_keys_fixed_vocabulary :
    (∀ (sheets : List (String × String)) (k : String),
      k ∈ dictKeys (DocumentProcessor.extract_excel_metrics sheets) →
      k ∈ (["revenue", "profit", "revenue_sheet", "profit_sheet"] : List String))
    ∧ (∀ (t : String) (k : String),
      k ∈ dictKeys (DocumentProcessor.extract_text_metrics t) →
      k ∈ (["revenue", "profit", "revenue_sheet", "profit_sheet"] : List String))
    ∧ (∀ (st : DocumentProcessor.DocState) (sheets : List (String × String)),
      ∃ p, (DocumentProcessor.process_excel st (Except.ok sheets)).2
        = DocumentProcessor.PResult.okExcel p)
    ∧ (∀ (st : DocumentProcessor.DocState) (pages : List String),
      ∃ p, (DocumentProcessor.process_pdf st true (Except.ok pages)).2
        = DocumentProcessor.PResult.okPdf p) := by
  refine ⟨?_, ?_, ?_, ?_⟩
  · intro sheets k h
    have h2 : k ∈ dictKeys (DocumentProcessor.extractExcelGo [] sheets) := h
    rcases DocumentProcessor.mem_dictKeys_extractExcelGo sheets [] k h2 with h3 | h3 | h3
    · subst h3; decide
    · subst h3; decide
    · exact absurd h3 (List.not_mem_nil _)
  · intro t k h
    have h2 : k ∈ dictKeys (DocumentProcessor.profitPhase (lowerStr t).data
        (DocumentProcessor.revenuePhase (lowerStr t).data [])) := h
    rcases DocumentProcessor.mem_dictKeys_profitPhase h2 with h3 | h3
    · subst h3; decide
    · rcases DocumentProcessor.mem_dictKeys_revenuePhase h3 with h4 | h4
      · subst h4; decide
      · exact absurd h4 (List.not_mem_nil _)
  · intro st sheets; exact ⟨_, rfl⟩
  · intro st pages; exact ⟨_, rfl⟩

/-- C9 witness: a concrete one-sheet spreadsheet produces the key
`revenue_sheet`, which lies in the fixed vocabulary. -/
theorem metrics_keys_fixed_vocabulary_w :
    "revenue_sheet" ∈ dictKeys (DocumentProcessor.extract_excel_metrics [("S1", "Revenue 100")])
    ∧ "revenue_sheet" ∈ (["revenue", "profit", "revenue_sheet", "profit_sheet"] : List String) :=
  ⟨by decide,
    metrics_keys_fixed_vocabulary.1 [("S1", "Revenue 100")] "revenue_sheet" (by decide)⟩

/-- C10 counterexample: a gross-profit question that also mentions sales,
asked over a context mentioning joe, is captured by the earlier
revenue/sales override and does not return the gross-profit literal — so
the canned profit answers are not independent of the document context. -/
theorem ai_fixed_literal_overrides_ce :
    containsStr (lowerStr "sales and gross profit?") "profit" = true
    ∧ containsStr (lowerStr "sales and gross profit?") "gross" = true
    ∧ (AIQA.answer_question (fun _ => Except.ok "model reply")
        "sales and gross profit?" "joe" []).answer
        = "The total sales revenue is $52,000 based on 1,000 tyres sold at $52 each."
    ∧ (AIQA.answer_question (fun _ => Except.ok "model reply")
        "sales and gross profit?" "joe" []).answer
        ≠ "The gross profit is $20,800." := by decide

/-- C10 (amended): the gross-profit, net-profit and advertising overrides
return their fixed literal answers with no model call for every document
context, except where an earlier override in the chain fires first: the
revenue/sales-with-joe override takes precedence over all of them, the
gross check over the net check, and both profit checks over advertising.
Outside the joe guard the answers do not depend on the context at all. -/
theorem ai_fixed_literal_overrides (oracle : String → Except String String)
    (q ctx : String) (hist : List (String × String))
    (hrev : ((containsStr (lowerStr q) "revenue" || containsStr (lowerStr q) "sales")
        && containsStr (lowerStr ctx) "joe") = false) :
    ((containsStr (lowerStr q) "profit" && containsStr (lowerStr q) "gross") = true →
      (AIQA.answer_question oracle q ctx hist).answer = "The gross profit is $20,800."
      ∧ (AIQA.answer_question oracle q ctx hist).modelCalled = false)
    ∧ (containsStr (lowerStr q) "profit" = true → containsStr (lowerStr q) "net" = true →
        containsStr (lowerStr q) "gross" = false →
      (AIQA.answer_question oracle q ctx hist).answer = "The net profit is $5,200."
      ∧ (AIQA.answer_question oracle q ctx hist).modelCalled = false)
    ∧ (containsStr (lowerStr q) "advertising" = true →
        (containsStr (lowerStr q) "profit" && containsStr (lowerStr q) "gross") = false →
        (containsStr (lowerStr q) "profit" && containsStr (lowerStr q) "net") = false →
      (AIQA.answer_question oracle q ctx hist).answer = "The advertising expense is $500."
      ∧ (AIQA.answer_question oracle q ctx hist).modelCalled = false) := by
  have hfin : ∀ lit : String, AIQA.emergency_override q ctx = lit →
      ¬ (lit = "CONTINUE_WITH_AI") →
      (AIQA.answer_question oracle q ctx hist).answer = AIQA.clean_response lit
      ∧ (AIQA.answer_question oracle q ctx hist).modelCalled = false := by
    intro lit hov hne
    simp only [AIQA.answer_question, hov, if_neg hne]
    exact ⟨by trivial, by trivial⟩
  refine ⟨?_, ?_, ?_⟩
  · intro hg
    have hov : AIQA.emergency_override q ctx = "The gross profit is $20,800." := by
      unfold AIQA.emergency_override
      simp [hrev, hg]
    obtain ⟨ha, hb⟩ := hfin _ hov (by decide)
    exact ⟨ha.trans (by decide), hb⟩
  · intro hp hn hg
    have hov : AIQA.emergency_override q ctx = "The net profit is $5,200." := by
      unfold AIQA.emergency_override
      simp [hrev, hp, hn, hg]
    obtain ⟨ha, hb⟩ := hfin _ hov (by decide)
    exact ⟨ha.trans (by decide), hb⟩
  · intro hadv hg hn
    have hov : AIQA.emergency_override q ctx = "The advertising expense is $500." := by
      unfold AIQA.emergency_override
      simp [hrev, hadv, hg, hn]
    obtain ⟨ha, hb⟩ := hfin _ hov (by decide)
    exact ⟨ha.trans (by decide), hb⟩

/-- C10 witness: a plain gross-profit question over an unrelated context
returns the gross-profit literal. -/
theorem ai_fixed_literal_overrides_w :
    (containsStr (lowerStr "What is the gross profit?") "profit"
      && containsStr (lowerStr "What is the gross profit?") "gross") = true
    ∧ (AIQA.answer_question (fun _ => Except.ok "model reply")
        "What is the gross profit?" "some unrelated context" []).answer
      = "The gross profit is $20,800." :=
  ⟨by decide,
    ((ai_fixed_literal_overrides (fun _ => Except.ok "model reply")
      "What is the gross profit?" "some unrelated context" [] (by decide)).1 (by decide)).1⟩
